import Mathlib

/-!
Shallow embedding of the macro-recorder core (src/models.py, src/storage.py,
src/core.py, src/io_adapters.py) together with theorems settling the claims
about its specification.

Conventions of the embedding:
* Python floats (timestamps, configuration thresholds, speed factors, random
  draws) are embedded as rationals; machine timestamps are inputs, never read
  from a real clock, so handlers take the current time (or a clock oracle) as
  an explicit argument.
* `Position.distance_to` in the source returns the real square root of the
  squared coordinate differences. Every use in the source compares that
  distance against a nonnegative configured threshold `c`; the embedding
  performs the equivalent comparison of the squared distance against `c ^ 2`,
  which keeps every definition executable.
* Side effects (file writes, log lines, injected input, sleeps) are embedded
  as values of explicit effect types returned in order of occurrence.
* A Python function that can raise embeds as a function into `PyResult` or
  `Except`; a total embedding models a handler that cannot raise.
-/

/-- Result of running a piece of Python code that can raise an exception. -/
inductive PyResult (α : Type) where
  | ok (value : α)
  | raised (message : String)
  deriving DecidableEq, Repr

/-- Immutable screen position from src/models.py (`Position`), with integer
coordinates. -/
structure Position where
  x : Int
  y : Int
  deriving DecidableEq, Repr

/-- Squared Euclidean distance between two positions. The source method
`Position.distance_to` returns the square root of this value; comparisons of
`distance_to` against a nonnegative threshold `c` are embedded as comparisons
of `distance_sq` against `c ^ 2`. -/
def Position.distance_sq (p q : Position) : Int :=
  (p.x - q.x) ^ 2 + (p.y - q.y) ^ 2

/-- Mouse button enumeration from src/models.py (`MouseButton`). -/
inductive MouseButton where
  | left
  | right
  | middle
  deriving DecidableEq, Repr

/-- Wire string of a mouse button: the `value` of the Python enum member. -/
def MouseButton.value : MouseButton → String
  | .left => "Button.left"
  | .right => "Button.right"
  | .middle => "Button.middle"

/-- Embedding of `MouseButton.from_string` (src/models.py): the source loops
over the enum members in declaration order (LEFT, RIGHT, MIDDLE) and returns
the first member whose `value` equals the argument, raising `ValueError` with
the offending string when none matches. -/
def MouseButton.from_string (button_str : String) : Except String MouseButton :=
  if button_str = MouseButton.left.value then Except.ok MouseButton.left
  else if button_str = MouseButton.right.value then Except.ok MouseButton.right
  else if button_str = MouseButton.middle.value then Except.ok MouseButton.middle
  else Except.error button_str

/-- Tagged union of the recorded event kinds from src/models.py
(`MouseMoveEvent`, `MouseButtonEvent`, `MouseScrollEvent`, `KeyboardEvent`),
each carrying its timestamp in seconds. -/
inductive MacroEvent where
  | mouseMove (timestamp : ℚ) (position : Position)
  | mouseButton (timestamp : ℚ) (button : MouseButton) (position : Position) (pressed : Bool)
  | mouseScroll (timestamp : ℚ) (position : Position) (scroll_amount : Int)
  | keyboard (timestamp : ℚ) (key : String) (pressed : Bool)
  deriving DecidableEq, Repr

/-- Timestamp of an event (the `timestamp` field shared by every variant). -/
def MacroEvent.timestamp : MacroEvent → ℚ
  | .mouseMove t _ => t
  | .mouseButton t _ _ _ => t
  | .mouseScroll t _ _ => t
  | .keyboard t _ _ => t

/-- Embedding of the JSON dictionary shape produced by the `to_dict` methods
of src/models.py and consumed by `MacroPlayer._execute_event`. Fields a given
event kind does not write are `none`; `time_diff` is `none` until
`MacroStorage.save_to_file` adds it. -/
structure EventDict where
  action : String
  timestamp : ℚ
  position : Option (Int × Int) := none
  button : Option String := none
  scroll : Option Int := none
  key : Option String := none
  event_type : Option String := none
  time_diff : Option ℚ := none
  deriving DecidableEq, Repr

/-- Embedding of the per-class `to_dict` methods of src/models.py. -/
def MacroEvent.to_dict : MacroEvent → EventDict
  | .mouseMove t p =>
      { action := "move", timestamp := t, position := some (p.x, p.y) }
  | .mouseButton t b p pr =>
      { action := if pr then "press" else "release", timestamp := t,
        button := some b.value, position := some (p.x, p.y) }
  | .mouseScroll t p a =>
      { action := "scroll", timestamp := t, position := some (p.x, p.y),
        scroll := some a }
  | .keyboard t k pr =>
      { action := "key", timestamp := t, key := some k,
        event_type := some (if pr then "down" else "up") }

/-- Embedding of `MouseMoveEvent.from_dict` (src/models.py); `none` models the
`KeyError` raised when a required field is absent. -/
def MouseMoveEvent.from_dict (d : EventDict) : Option MacroEvent :=
  match d.position with
  | some (px, py) => some (MacroEvent.mouseMove d.timestamp ⟨px, py⟩)
  | none => none

/-- Embedding of `MouseButtonEvent.from_dict` (src/models.py): the button is
parsed with `MouseButton.from_string`, and `pressed` is recovered as
`action == "press"`. `none` models the `KeyError` or `ValueError` raised on a
malformed dictionary. -/
def MouseButtonEvent.from_dict (d : EventDict) : Option MacroEvent :=
  match d.position, d.button with
  | some (px, py), some bs =>
      match MouseButton.from_string bs with
      | Except.ok b =>
          some (MacroEvent.mouseButton d.timestamp b ⟨px, py⟩ (d.action = "press"))
      | Except.error _ => none
  | _, _ => none

/-- Embedding of `MouseScrollEvent.from_dict` (src/models.py). -/
def MouseScrollEvent.from_dict (d : EventDict) : Option MacroEvent :=
  match d.position, d.scroll with
  | some (px, py), some a =>
      some (MacroEvent.mouseScroll d.timestamp ⟨px, py⟩ a)
  | _, _ => none

/-- Embedding of `KeyboardEvent.from_dict` (src/models.py): `pressed` is
recovered as `event_type == "down"`. -/
def KeyboardEvent.from_dict (d : EventDict) : Option MacroEvent :=
  match d.key, d.event_type with
  | some k, some et => some (MacroEvent.keyboard d.timestamp k (et = "down"))
  | _, _ => none

/-- Dispatch of a persisted record to the matching `from_dict` constructor,
keyed on the `action` tag exactly as `MacroPlayer._execute_event`
(src/core.py) interprets records: "move", "press"/"release", "scroll",
"key"; any other tag matches no event kind. -/
def event_from_dict (d : EventDict) : Option MacroEvent :=
  if d.action = "move" then MouseMoveEvent.from_dict d
  else if d.action = "press" ∨ d.action = "release" then MouseButtonEvent.from_dict d
  else if d.action = "scroll" then MouseScrollEvent.from_dict d
  else if d.action = "key" then KeyboardEvent.from_dict d
  else none

/-- Configuration thresholds from src/config.py (`Configuration`), restricted
to the fields the verified components read. Defaults are those of the source
(`0.02` and `0.3` written as exact rationals). -/
structure Configuration where
  min_move_distance : ℚ := 5
  min_move_time : ℚ := 1 / 50
  double_click_threshold : ℚ := 3 / 10
  double_click_distance : ℚ := 5
  replay_delay : ℚ := 1 / 2
  deriving DecidableEq, Repr

/-- Mutable recorder state read and written by the mouse-move handler of
`MacroRecorder` (src/core.py): the event log, the last recorded position
(`None` before the first sample since reset) and the last recorded time. -/
structure RecorderState where
  events : List MacroEvent
  last_recorded_pos : Option Position
  last_move_time : ℚ
  deriving DecidableEq, Repr

/-- Embedding of `MacroRecorder._on_mouse_move` (src/core.py). The first
sample after a reset only seeds the last-recorded position and time; a later
sample is recorded exactly when its distance from the last recorded position
exceeds `min_move_distance` or the elapsed time exceeds `min_move_time`
(squared-distance comparison, see `Position.distance_sq`). -/
def MacroRecorder.on_mouse_move (config : Configuration) (s : RecorderState)
    (position : Position) (current_time : ℚ) : RecorderState :=
  match s.last_recorded_pos with
  | none =>
      { s with last_recorded_pos := some position, last_move_time := current_time }
  | some last_pos =>
      if (Position.distance_sq position last_pos : ℚ) > config.min_move_distance ^ 2
          ∨ current_time - s.last_move_time > config.min_move_time then
        { events := s.events ++ [MacroEvent.mouseMove current_time position],
          last_recorded_pos := some position,
          last_move_time := current_time }
      else
        s

/-- Embedding of `MacroRecorder._on_mouse_scroll` (src/core.py). The source
constructs the event with `timestamp=time()`, where `time` is the imported
module object and not a function; evaluating that argument raises
`TypeError` before the event is constructed, so nothing is ever appended and
the exception propagates out of the handler (the `with self.lock` context
manager releases the lock). The position and amount parameters mirror the
source signature; they are never reached. -/
def MacroRecorder.on_mouse_scroll (_s : RecorderState) (_position : Position)
    (_amount : Int) : PyResult RecorderState :=
  PyResult.raised "TypeError: the time module object is not callable"

/-- Embedding of the serialization loop inside `MacroStorage.save_to_file`
(src/storage.py): each event contributes its `to_dict` record extended with
`time_diff`, the difference between the event timestamp and the running
`prev_timestamp`, which is then advanced to the event timestamp. -/
def serialize_with_diffs (prev_timestamp : ℚ) : List MacroEvent → List EventDict
  | [] => []
  | e :: rest =>
      { e.to_dict with time_diff := some (e.timestamp - prev_timestamp) }
        :: serialize_with_diffs e.timestamp rest

/-- Record list written by `MacroStorage.save_to_file` (src/storage.py):
`prev_timestamp` starts at the first event timestamp, so the first record
carries `time_diff = 0`; an empty event list produces an empty record list. -/
def save_to_file_records (events : List MacroEvent) : List EventDict :=
  match events with
  | [] => []
  | e0 :: _ => serialize_with_diffs e0.timestamp events

/-- Specification-side sequence of timestamp deltas of an event list: `0` for
the first event, then each event timestamp minus its predecessor's. Used to
state the round-trip and time-diff claims. -/
def time_diffs : List MacroEvent → List ℚ
  | [] => []
  | e0 :: rest =>
      0 :: List.zipWith (fun prev cur => cur.timestamp - prev.timestamp) (e0 :: rest) rest

/-- Filesystem and log effects of the save path (src/storage.py and the
`save_recording` guard in src/core.py), in order of occurrence. -/
inductive SaveEffect where
  | mkdirParents (filename : String)
  | writeFile (filename : String) (contents : List EventDict)
  | logSaved (count : Nat) (filename : String)
  | logNoEventsWarning
  deriving DecidableEq, Repr

/-- Embedding of `MacroStorage.save_to_file` (src/storage.py): create the
parent directory, write the serialized records as JSON, log the count. -/
def MacroStorage.save_to_file (events : List MacroEvent) (filename : String) :
    List SaveEffect :=
  [SaveEffect.mkdirParents filename,
   SaveEffect.writeFile filename (save_to_file_records events),
   SaveEffect.logSaved (save_to_file_records events).length filename]

/-- Embedding of `MacroRecorder.save_recording` (src/core.py): with no
recorded events it logs a warning and returns before calling the storage
codec; otherwise it delegates to `MacroStorage.save_to_file`. -/
def MacroRecorder.save_recording (events : List MacroEvent) (filename : String) :
    List SaveEffect :=
  if events = [] then [SaveEffect.logNoEventsWarning]
  else MacroStorage.save_to_file events filename

/-- Content found at a path: either a JSON document parsing to a record list
or text that `json.load` rejects. -/
inductive FileContent where
  | validJson (records : List EventDict)
  | invalidJson
  deriving DecidableEq

/-- The two load failure kinds re-raised by `MacroStorage.load_from_file`
(src/storage.py) and caught by `MacroPlayer.play` (src/core.py). -/
inductive LoadError where
  | fileNotFound
  | jsonDecodeError
  deriving DecidableEq, Repr

/-- Embedding of `MacroStorage.load_from_file` (src/storage.py) against a
filesystem modeled as a partial map from paths to contents: an absent path
raises `FileNotFoundError`, unparseable content raises
`json.JSONDecodeError`, and valid content yields the parsed record list. -/
def MacroStorage.load_from_file (fs : String → Option FileContent)
    (filename : String) : Except LoadError (List EventDict) :=
  match fs filename with
  | none => Except.error LoadError.fileNotFound
  | some FileContent.invalidJson => Except.error LoadError.jsonDecodeError
  | some (FileContent.validJson records) => Except.ok records

/-- Observable playback effects of `MacroPlayer.play` and
`MacroPlayer._execute_event` (src/core.py), in order of occurrence: UI,
logging, sleeps and every output-capability call of src/io_adapters.py. -/
inductive PlayEffect where
  | logLoadError
  | showCountdown
  | logReplayStart (count : Nat)
  | sleepReplayDelay
  | sleepWait (duration : ℚ)
  | moveMouse (position : Position) (duration : ℚ)
  | pressMouseButton (button : MouseButton)
  | releaseMouseButton (button : MouseButton)
  | scrollMouse (amount : Int)
  | pressKey (key : String)
  | releaseKey (key : String)
  | logDoubleClick (button : MouseButton)
  | logReplayComplete
  deriving DecidableEq, Repr

/-- Playback click-memory: the `last_click_positions` mapping of `MacroPlayer`
(src/core.py) from button to last press time and position. -/
def ClickMemory : Type := MouseButton → Option (ℚ × Position)

/-- Embedding of `MacroPlayer._check_double_click` (src/core.py): true exactly
when the click-memory holds a previous press of the same button strictly
within the configured time threshold and strictly within the configured
distance (squared-distance comparison, see `Position.distance_sq`). The
check reads the click-memory and returns a Boolean; it never writes it. -/
def MacroPlayer.check_double_click (config : Configuration)
    (last_click_positions : ClickMemory) (button : MouseButton)
    (position : Position) (current_time : ℚ) : Bool :=
  match last_click_positions button with
  | some (last_time, last_pos) =>
      decide (current_time - last_time < config.double_click_threshold
        ∧ (Position.distance_sq position last_pos : ℚ) < config.double_click_distance ^ 2)
  | none => false

/-- Embedding of the "press" branch of `MacroPlayer._execute_event`
(src/core.py): run the double-click check (logging on a hit), then store the
current time and position for this button in the click-memory regardless of
the check outcome, then press the button. -/
def MacroPlayer.handle_press (config : Configuration)
    (last_click_positions : ClickMemory) (button : MouseButton)
    (position : Position) (current_time : ℚ) : List PlayEffect × ClickMemory :=
  let is_double_click :=
    MacroPlayer.check_double_click config last_click_positions button position current_time
  ((if is_double_click then [PlayEffect.logDoubleClick button] else [])
      ++ [PlayEffect.pressMouseButton button],
   fun b => if b = button then some (current_time, position) else last_click_positions b)

/-- Embedding of `MacroPlayer._execute_event` (src/core.py): dispatch on the
record's `action` tag and invoke the output capability; `none` models the
uncaught `KeyError`/`ValueError` a malformed record raises. A record whose
tag (or `event_type`) matches no branch falls through and does nothing. -/
def MacroPlayer.execute_event (config : Configuration)
    (last_click_positions : ClickMemory) (event_dict : EventDict)
    (current_time : ℚ) : Option (List PlayEffect × ClickMemory) :=
  if event_dict.action = "move" then
    match event_dict.position with
    | some (px, py) => some ([PlayEffect.moveMouse ⟨px, py⟩ (1 / 100)], last_click_positions)
    | none => none
  else if event_dict.action = "press" then
    match event_dict.position, event_dict.button with
    | some (px, py), some bs =>
        match MouseButton.from_string bs with
        | Except.ok b =>
            some (MacroPlayer.handle_press config last_click_positions b ⟨px, py⟩ current_time)
        | Except.error _ => none
    | _, _ => none
  else if event_dict.action = "release" then
    match event_dict.button with
    | some bs =>
        match MouseButton.from_string bs with
        | Except.ok b => some ([PlayEffect.releaseMouseButton b], last_click_positions)
        | Except.error _ => none
    | none => none
  else if event_dict.action = "scroll" then
    match event_dict.scroll with
    | some a => some ([PlayEffect.scrollMouse a], last_click_positions)
    | none => none
  else if event_dict.action = "key" then
    match event_dict.key, event_dict.event_type with
    | some k, some et =>
        if et = "down" then some ([PlayEffect.pressKey k], last_click_positions)
        else if et = "up" then some ([PlayEffect.releaseKey k], last_click_positions)
        else some ([], last_click_positions)
    | _, _ => none
  else
    some ([], last_click_positions)

/-- Embedding of the speed-based move-skip decision of `MacroPlayer.play`
(src/core.py, the block guarded by `speed_factor > 1 and action == "move"`).
Returns whether the record is skipped together with the new skip counter and
the new index into the stream of uniform random draws; a draw is consumed
only when the counter test passes, mirroring Python short-circuiting. -/
def move_skip_decision (speed_factor : ℚ) (draws : ℕ → ℚ) (skip_count : Nat)
    (draw_index : Nat) (action : String) : Bool × Nat × Nat :=
  if 1 < speed_factor ∧ action = "move" then
    if (skip_count : ℚ) < min 5 speed_factor then
      if draws draw_index < 1 - 1 / speed_factor then
        (true, skip_count + 1, draw_index + 1)
      else
        (false, 0, draw_index + 1)
    else
      (false, 0, draw_index)
  else
    (false, skip_count, draw_index)

/-- Loop state threaded through the record loop of `MacroPlayer.play`
(src/core.py): the skip counter, the indices into the random-draw and clock
oracles, the time the previous action was issued, and the click-memory. -/
structure PlayLoopState where
  skip_count : Nat
  draw_index : Nat
  clock_index : Nat
  last_action_time : ℚ
  last_click_positions : ClickMemory

/-- Embedding of the record loop of `MacroPlayer.play` (src/core.py) over
index-record pairs. `clock` is the oracle for successive `time.time()`
readings. A skipped move neither waits nor executes; a later record waits
`max 0 (time_diff / speed_factor - elapsed)` and sleeps only when positive;
a malformed record (missing field, unknown button) raises, ending the trace
with the effects already performed. -/
def MacroPlayer.play_loop (config : Configuration) (speed_factor : ℚ)
    (draws clock : ℕ → ℚ) : List (ℕ × EventDict) → PlayLoopState → List PlayEffect
  | [], _ => [PlayEffect.logReplayComplete]
  | (i, event_dict) :: rest, st =>
      let dec := move_skip_decision speed_factor draws st.skip_count st.draw_index
        event_dict.action
      if dec.1 then
        MacroPlayer.play_loop config speed_factor draws clock rest
          { st with skip_count := dec.2.1, draw_index := dec.2.2 }
      else if i = 0 then
        let t := clock st.clock_index
        match MacroPlayer.execute_event config st.last_click_positions event_dict t with
        | none => []
        | some (fx, clicks) =>
            fx ++ MacroPlayer.play_loop config speed_factor draws clock rest
              { skip_count := dec.2.1, draw_index := dec.2.2,
                clock_index := st.clock_index + 1, last_action_time := t,
                last_click_positions := clicks }
      else
        match event_dict.time_diff with
        | none => []
        | some td =>
            let wait_time := max 0 (td / speed_factor
              - (clock st.clock_index - st.last_action_time))
            let sleep_fx : List PlayEffect :=
              if 0 < wait_time then [PlayEffect.sleepWait wait_time] else []
            let t := clock (st.clock_index + 1)
            match MacroPlayer.execute_event config st.last_click_positions event_dict t with
            | none => sleep_fx
            | some (fx, clicks) =>
                sleep_fx ++ fx ++ MacroPlayer.play_loop config speed_factor draws clock rest
                  { skip_count := dec.2.1, draw_index := dec.2.2,
                    clock_index := st.clock_index + 2, last_action_time := t,
                    last_click_positions := clicks }

/-- Embedding of `MacroPlayer.play` (src/core.py): load through the codec and,
on `FileNotFoundError` or `json.JSONDecodeError`, log the failure and return
at once; otherwise show the countdown, log the start, sleep the settle delay,
reset the click-memory and run the record loop. `clock 0` is the
`start_time` reading. -/
def MacroPlayer.play (config : Configuration) (fs : String → Option FileContent)
    (filename : String) (speed_factor : ℚ) (draws clock : ℕ → ℚ) : List PlayEffect :=
  match MacroStorage.load_from_file fs filename with
  | Except.error _ => [PlayEffect.logLoadError]
  | Except.ok events =>
      PlayEffect.showCountdown :: PlayEffect.logReplayStart events.length
        :: PlayEffect.sleepReplayDelay
        :: MacroPlayer.play_loop config speed_factor draws clock events.enum
          { skip_count := 0, draw_index := 0, clock_index := 1,
            last_action_time := clock 0, last_click_positions := fun _ => none }

/-- Sequence of skip decisions the play loop makes for a list of record
action tags, threading the skip counter and draw index through
`move_skip_decision` exactly as `MacroPlayer.play_loop` does. -/
def skip_flags (speed_factor : ℚ) (draws : ℕ → ℚ) :
    List String → Nat → Nat → List Bool
  | [], _, _ => []
  | action :: rest, skip_count, draw_index =>
      let dec := move_skip_decision speed_factor draws skip_count draw_index action
      dec.1 :: skip_flags speed_factor draws rest dec.2.1 dec.2.2

/-- Longest run of consecutive `true` entries, tracked with the length of the
current run and the best run seen so far. -/
def max_run_aux : List Bool → Nat → Nat → Nat
  | [], cur, best => max cur best
  | true :: rest, cur, best => max_run_aux rest (cur + 1) best
  | false :: rest, cur, best => max_run_aux rest 0 (max cur best)

/-- Longest run of consecutive `true` entries of a Boolean list. -/
def max_run (l : List Bool) : Nat := max_run_aux l 0 0

/-- States of the recorder session observed by `MacroRecorder.stop_recording`
(src/core.py): the event log, the mouse listener (`none` before
`start_listening` ever ran, otherwise `some running`) and whether the
keyboard hook is installed. -/
structure MacroRecorderSession where
  events : List MacroEvent
  mouse_listener : Option Bool
  keyboard_hooked : Bool
  deriving DecidableEq, Repr

/-- Log effects of stopping a recording session. -/
inductive StopEffect where
  | logMouseAdapterStopped
  | logKeyboardAdapterStopped
  | logRecordingStopped (count : Nat)
  deriving DecidableEq, Repr

/-- Embedding of `MouseInputAdapter.stop_listening` (src/io_adapters.py): the
guard `if self.listener` makes it a no-op when the listener was never
created; otherwise the listener is stopped (it remains assigned) and a log
line is emitted. -/
def MouseInputAdapter.stop_listening (listener : Option Bool) :
    Option Bool × List StopEffect :=
  match listener with
  | none => (none, [])
  | some _ => (some false, [StopEffect.logMouseAdapterStopped])

/-- Embedding of `KeyboardInputAdapter.stop_listening` (src/io_adapters.py):
`keyboard.unhook_all()` runs unconditionally, then a log line is emitted. -/
def KeyboardInputAdapter.stop_listening (_hooked : Bool) : Bool × List StopEffect :=
  (false, [StopEffect.logKeyboardAdapterStopped])

/-- Embedding of `MacroRecorder.stop_recording` (src/core.py): stop both input
adapters, log the number of recorded events, and fall off the end of the
function body, so the Python return value is `None` (modeled as the
`Option Nat` component, which is always `none`). -/
def MacroRecorder.stop_recording (s : MacroRecorderSession) :
    MacroRecorderSession × Option Nat × List StopEffect :=
  let m := MouseInputAdapter.stop_listening s.mouse_listener
  let k := KeyboardInputAdapter.stop_listening s.keyboard_hooked
  (⟨s.events, m.1, k.1⟩, none,
   m.2 ++ k.2 ++ [StopEffect.logRecordingStopped s.events.length])

/-! Theorems settling the claims. -/

/-- C3: the spec says every scroll callback appends exactly one MouseScroll
event with the delivered position, amount and current time, and completes
without error. The code instead raises `TypeError` on every scroll callback:
`MacroRecorder._on_mouse_scroll` (src/core.py line 116) evaluates
`timestamp=time()`, calling the imported `time` module object itself instead
of `time.time()`, so no event is ever appended. This theorem records what the
code does at every input, exhibiting the divergence. -/
theorem C3_scroll_handler_raises (s : RecorderState) (position : Position)
    (amount : Int) :
    MacroRecorder.on_mouse_scroll s position amount
      = PyResult.raised "TypeError: the time module object is not callable" := rfl

/-- C7: requesting a save with an empty event sequence logs a warning and
performs no filesystem side effect at all: `MacroRecorder.save_recording`
returns before invoking the storage codec, so no directory is created and no
file is written, and no exception is raised (the embedding is total). -/
theorem C7_empty_save_noop (filename : String) :
    MacroRecorder.save_recording [] filename = [SaveEffect.logNoEventsWarning]
    ∧ ∀ eff ∈ MacroRecorder.save_recording [] filename,
        (∀ f, eff ≠ SaveEffect.mkdirParents f)
        ∧ ∀ f contents, eff ≠ SaveEffect.writeFile f contents := by
  have hsave : MacroRecorder.save_recording [] filename
      = [SaveEffect.logNoEventsWarning] := by
    simp [MacroRecorder.save_recording]
  refine ⟨hsave, ?_⟩
  intro eff heff
  rw [hsave] at heff
  simp only [List.mem_singleton] at heff
  subst heff
  exact ⟨fun f => by simp, fun f contents => by simp⟩

/-- C7 witness: the empty-save theorem applied to a concrete filename and the
concrete logged effect. -/
theorem C7_empty_save_noop_witness :
    (∀ f, SaveEffect.logNoEventsWarning ≠ SaveEffect.mkdirParents f)
    ∧ ∀ f contents, SaveEffect.logNoEventsWarning ≠ SaveEffect.writeFile f contents :=
  (C7_empty_save_noop "macros/test.json").2 SaveEffect.logNoEventsWarning
    (by simp [MacroRecorder.save_recording])

/-- C8: when the load fails, whether the path is absent or its content is not
valid JSON, `MacroPlayer.play` logs the failure and returns having performed
no other side effect: no countdown, no settle sleep, no wait sleep and no
output-capability call of any kind. -/
theorem C8_play_abort_on_load_failure (config : Configuration)
    (fs : String → Option FileContent) (filename : String)
    (speed_factor : ℚ) (draws clock : ℕ → ℚ)
    (h : fs filename = none ∨ fs filename = some FileContent.invalidJson) :
    MacroPlayer.play config fs filename speed_factor draws clock
      = [PlayEffect.logLoadError]
    ∧ ∀ eff ∈ MacroPlayer.play config fs filename speed_factor draws clock,
        eff ≠ PlayEffect.showCountdown
        ∧ eff ≠ PlayEffect.sleepReplayDelay
        ∧ (∀ d, eff ≠ PlayEffect.sleepWait d)
        ∧ (∀ p d, eff ≠ PlayEffect.moveMouse p d)
        ∧ (∀ b, eff ≠ PlayEffect.pressMouseButton b)
        ∧ (∀ b, eff ≠ PlayEffect.releaseMouseButton b)
        ∧ (∀ a, eff ≠ PlayEffect.scrollMouse a)
        ∧ (∀ k, eff ≠ PlayEffect.pressKey k)
        ∧ ∀ k, eff ≠ PlayEffect.releaseKey k := by
  have hplay : MacroPlayer.play config fs filename speed_factor draws clock
      = [PlayEffect.logLoadError] := by
    rcases h with h | h <;>
      simp [MacroPlayer.play, MacroStorage.load_from_file, h]
  refine ⟨hplay, ?_⟩
  intro eff heff
  rw [hplay] at heff
  simp only [List.mem_singleton] at heff
  subst heff
  refine ⟨by simp, by simp, fun d => by simp, fun p d => by simp, fun b => by simp,
    fun b => by simp, fun a => by simp, fun k => by simp, fun k => by simp⟩

/-- C8 witness: playing a path absent from a concrete empty filesystem
produces exactly the failure log line. -/
theorem C8_play_abort_witness :
    MacroPlayer.play {} (fun _ => none) "missing.json" 1 (fun _ => 0) (fun _ => 0)
      = [PlayEffect.logLoadError] :=
  (C8_play_abort_on_load_failure {} (fun _ => none) "missing.json" 1
    (fun _ => 0) (fun _ => 0) (Or.inl rfl)).1

/-- C9 counterexample: the claim says `stop()` returns the number of recorded
events, but on a session holding two events `MacroRecorder.stop_recording`
returns `None` (`isSome = false`): the count appears only in the log line. -/
theorem C9_stop_counterexample :
    (MacroRecorder.stop_recording
        ⟨[MacroEvent.mouseMove 0 ⟨1, 2⟩, MacroEvent.keyboard 1 "a" true],
          some true, true⟩).2.1.isSome = false
    ∧ ([MacroEvent.mouseMove 0 ⟨1, 2⟩, MacroEvent.keyboard 1 "a" true] :
        List MacroEvent).length = 2 := ⟨rfl, rfl⟩

/-- C9 amended: `stop_recording` ceases input callback delivery (the mouse
listener, when one exists, is stopped and the keyboard hook removed), logs
the number of recorded events, and returns `None` rather than that number; it
is safe to call when `start()` never ran or capture was already stopped: the
embedding is total (no exception), the event log is unchanged, and a second
call leaves the session state exactly where the first left it. -/
theorem C9_stop_contract (s : MacroRecorderSession) :
    (MacroRecorder.stop_recording s).1.events = s.events
    ∧ (MacroRecorder.stop_recording s).1.mouse_listener
        = s.mouse_listener.map (fun _ => false)
    ∧ (MacroRecorder.stop_recording s).1.keyboard_hooked = false
    ∧ (MacroRecorder.stop_recording s).2.1 = none
    ∧ StopEffect.logRecordingStopped s.events.length
        ∈ (MacroRecorder.stop_recording s).2.2
    ∧ (MacroRecorder.stop_recording (MacroRecorder.stop_recording s).1).1
        = (MacroRecorder.stop_recording s).1 := by
  cases s with
  | mk events mouse_listener keyboard_hooked =>
    cases mouse_listener <;>
      simp [MacroRecorder.stop_recording, MouseInputAdapter.stop_listening,
        KeyboardInputAdapter.stop_listening]

/-- C10: `MouseButton.from_string` is a left inverse of the wire value of each
of the three buttons, and raises `ValueError` on every other string. -/
theorem C10_from_string_inverse :
    (∀ b : MouseButton, MouseButton.from_string b.value = Except.ok b)
    ∧ ∀ s : String, s ≠ "Button.left" → s ≠ "Button.right" → s ≠ "Button.middle" →
        MouseButton.from_string s = Except.error s := by
  constructor
  · intro b
    cases b <;> rfl
  · intro s h1 h2 h3
    simp [MouseButton.from_string, MouseButton.value, h1, h2, h3]

/-- C10 witness: the inverse law at the left button and the error case at a
concrete string outside the wire-value set. -/
theorem C10_from_string_witness :
    MouseButton.from_string (MouseButton.left.value) = Except.ok MouseButton.left
    ∧ MouseButton.from_string "Button.x2" = Except.error "Button.x2" :=
  ⟨C10_from_string_inverse.1 MouseButton.left,
   C10_from_string_inverse.2 "Button.x2" (by decide) (by decide) (by decide)⟩

/-- C1: capture throttle. After a session reset the first sample produces no
recorded event and only seeds the last-recorded position and time; a later
sample whose distance from the last recorded position is at or below
`min_move_distance` and whose elapsed time is at or below `min_move_time`
leaves the state (event log included) unchanged; a later sample exceeding
either threshold appends exactly one MouseMove event and updates the
last-recorded position and time to that sample. Distances are compared
through their squares; the hypothesis that the configured minimum distance is
nonnegative (true of the source default, 5 px) makes that comparison
equivalent to the source's comparison of the Euclidean distance. -/
theorem C1_capture_throttle (config : Configuration)
    (hd : 0 ≤ config.min_move_distance)
    (s : RecorderState) (position : Position) (current_time : ℚ) :
    (s.last_recorded_pos = none →
      MacroRecorder.on_mouse_move config s position current_time
        = { s with last_recorded_pos := some position,
                   last_move_time := current_time })
    ∧ ∀ last_pos, s.last_recorded_pos = some last_pos →
        (((Position.distance_sq position last_pos : ℚ) ≤ config.min_move_distance ^ 2
            ∧ current_time - s.last_move_time ≤ config.min_move_time) →
          MacroRecorder.on_mouse_move config s position current_time = s)
        ∧ ((config.min_move_distance ^ 2 < (Position.distance_sq position last_pos : ℚ)
            ∨ config.min_move_time < current_time - s.last_move_time) →
          MacroRecorder.on_mouse_move config s position current_time
            = { events := s.events ++ [MacroEvent.mouseMove current_time position],
                last_recorded_pos := some position,
                last_move_time := current_time }) := by
  refine ⟨fun h => ?_, fun last_pos h => ⟨fun hle => ?_, fun hgt => ?_⟩⟩
  · simp [MacroRecorder.on_mouse_move, h]
  · have hc : ¬ ((Position.distance_sq position last_pos : ℚ)
        > config.min_move_distance ^ 2
        ∨ current_time - s.last_move_time > config.min_move_time) := by
      push_neg
      exact hle
    simp [MacroRecorder.on_mouse_move, h, hc]
  · simp [MacroRecorder.on_mouse_move, h, hgt]

/-- C1 witness: with the default configuration, a reference point at the
origin and a sample ten pixels away one second later, the throttle appends
exactly one MouseMove event and moves the reference point to the sample. -/
theorem C1_capture_throttle_witness :
    MacroRecorder.on_mouse_move {} ⟨[], some ⟨0, 0⟩, 0⟩ ⟨10, 0⟩ 1
      = { events := [MacroEvent.mouseMove 1 ⟨10, 0⟩],
          last_recorded_pos := some ⟨10, 0⟩,
          last_move_time := 1 } := by
  have h := ((C1_capture_throttle {} (by norm_num) ⟨[], some ⟨0, 0⟩, 0⟩ ⟨10, 0⟩ 1).2
    ⟨0, 0⟩ rfl).2 (Or.inl (by norm_num [Position.distance_sq]))
  simpa using h

/-- C5: the double-click check returns true exactly when the click-memory
holds a previous press of the same button strictly within the configured
time threshold and strictly within the configured distance (squared-distance
comparison, with the configured distance nonnegative as in the source
default); the check is a pure read of the click-memory, and the press branch
updates the click-memory with the current time and position of the press
regardless of the check outcome. -/
theorem C5_double_click (config : Configuration)
    (hd : 0 ≤ config.double_click_distance)
    (last_click_positions : ClickMemory) (button : MouseButton)
    (position : Position) (current_time : ℚ) :
    (MacroPlayer.check_double_click config last_click_positions button position
        current_time = true
      ↔ ∃ last_time last_pos,
          last_click_positions button = some (last_time, last_pos)
          ∧ current_time - last_time < config.double_click_threshold
          ∧ (Position.distance_sq position last_pos : ℚ)
              < config.double_click_distance ^ 2)
    ∧ (MacroPlayer.handle_press config last_click_positions button position
        current_time).2
      = fun b => if b = button then some (current_time, position)
          else last_click_positions b := by
  constructor
  · unfold MacroPlayer.check_double_click
    cases hm : last_click_positions button with
    | none => simp
    | some v =>
      obtain ⟨last_time, last_pos⟩ := v
      simp only [decide_eq_true_eq, Option.some.injEq, Prod.mk.injEq]
      constructor
      · intro hp
        exact ⟨last_time, last_pos, ⟨rfl, rfl⟩, hp.1, hp.2⟩
      · rintro ⟨lt, lp, hEq, h1, h2⟩
        obtain ⟨h3, h4⟩ := hEq
        subst h3
        subst h4
        exact ⟨h1, h2⟩
  · rfl

/-- C5 witness: with the default thresholds, a left press at (100, 200) at
time 0 followed by a left press at (103, 202) at time 0.2 is a double click,
and the press branch rewrites the left-button click-memory entry to the new
press regardless. -/
theorem C5_double_click_witness :
    MacroPlayer.check_double_click {}
        (fun b => if b = MouseButton.left then some (0, ⟨100, 200⟩) else none)
        MouseButton.left ⟨103, 202⟩ (1 / 5) = true
    ∧ (MacroPlayer.handle_press {}
        (fun b => if b = MouseButton.left then some (0, ⟨100, 200⟩) else none)
        MouseButton.left ⟨103, 202⟩ (1 / 5)).2
      = fun b => if b = MouseButton.left then some ((1 : ℚ) / 5, (⟨103, 202⟩ : Position))
          else if b = MouseButton.left then some (0, ⟨100, 200⟩) else none := by
  have h := C5_double_click {} (by norm_num)
    (fun b => if b = MouseButton.left then some (0, ⟨100, 200⟩) else none)
    MouseButton.left ⟨103, 202⟩ (1 / 5)
  refine ⟨h.1.mpr ⟨0, ⟨100, 200⟩, by simp, by norm_num, by norm_num [Position.distance_sq]⟩, ?_⟩
  exact h.2

/-- A record written by the save path decodes, through the `from_dict`
dispatch, back to exactly the event it was produced from: `to_dict` keeps the
timestamp, position, button or key identity and pressed-state, and the added
`time_diff` field is ignored by decoding. -/
theorem event_from_dict_to_dict (e : MacroEvent) (td : Option ℚ) :
    event_from_dict { e.to_dict with time_diff := td } = some e := by
  cases e with
  | mouseMove t p => rfl
  | mouseButton t b p pr => cases b <;> cases pr <;> rfl
  | mouseScroll t p a => rfl
  | keyboard t k pr => cases pr <;> rfl

/-- The serialization loop emits one record per event. -/
theorem serialize_with_diffs_length (l : List MacroEvent) :
    ∀ p, (serialize_with_diffs p l).length = l.length := by
  induction l with
  | nil => intro p; rfl
  | cons e rest ih => intro p; simp [serialize_with_diffs, ih]

/-- Decoding the records of the serialization loop recovers the events. -/
theorem serialize_with_diffs_map_from_dict (l : List MacroEvent) :
    ∀ p, (serialize_with_diffs p l).map event_from_dict = l.map some := by
  induction l with
  | nil => intro p; rfl
  | cons e rest ih =>
      intro p
      simp [serialize_with_diffs, event_from_dict_to_dict, ih]

/-- The `time_diff` fields of the serialization loop, started at the timestamp
of a previous event, are the adjacent timestamp differences. -/
theorem serialize_with_diffs_map_time_diff (l : List MacroEvent) :
    ∀ prev : MacroEvent,
      (serialize_with_diffs prev.timestamp l).map EventDict.time_diff
        = (List.zipWith (fun a b => b.timestamp - a.timestamp) (prev :: l) l).map some := by
  induction l with
  | nil => intro prev; rfl
  | cons e rest ih =>
      intro prev
      simp only [serialize_with_diffs, List.map_cons, List.zipWith_cons_cons]
      exact congrArg _ (ih e)

/-- The records written by save carry exactly the specification-side delta
sequence of the events as their `time_diff` fields. -/
theorem save_records_map_time_diff (events : List MacroEvent) :
    (save_to_file_records events).map EventDict.time_diff
      = (time_diffs events).map some := by
  cases events with
  | nil => rfl
  | cons e0 rest =>
      have h := serialize_with_diffs_map_time_diff (e0 :: rest) e0
      simp only [save_to_file_records, time_diffs]
      simp only [serialize_with_diffs, List.map_cons, List.zipWith_cons_cons, sub_self] at h ⊢
      exact h

/-- C2: round-trip. Loading the file written by save yields the saved record
list unchanged; it has one record per event in the same order; through the
`from_dict` dispatch every record reconstructs exactly its original event
(same action tag, position coordinates, button or key identity and
pressed-state — indeed the full event, timestamp included); and the sequence
of `time_diff` values equals the sequence of timestamp deltas of the original
events, the first delta being 0. -/
theorem C2_round_trip (events : List MacroEvent) (hne : events ≠ [])
    (fs : String → Option FileContent) (filename : String)
    (hfs : fs filename = some (FileContent.validJson (save_to_file_records events))) :
    MacroStorage.load_from_file fs filename
      = Except.ok (save_to_file_records events)
    ∧ (save_to_file_records events).length = events.length
    ∧ (save_to_file_records events).map event_from_dict = events.map some
    ∧ (save_to_file_records events).map EventDict.time_diff
        = (time_diffs events).map some := by
  refine ⟨by simp [MacroStorage.load_from_file, hfs], ?_, ?_, save_records_map_time_diff events⟩
  · cases events with
    | nil => rfl
    | cons e0 rest => exact serialize_with_diffs_length (e0 :: rest) e0.timestamp
  · cases events with
    | nil => rfl
    | cons e0 rest => exact serialize_with_diffs_map_from_dict (e0 :: rest) e0.timestamp

/-- C2 witness: a concrete two-event recording saved to a concrete filesystem
loads back as the saved records, decodes to the original events, and carries
the delta sequence [0, 2]. -/
theorem C2_round_trip_witness :
    MacroStorage.load_from_file
        (fun f => if f = "m.json" then
            some (FileContent.validJson (save_to_file_records
              [MacroEvent.mouseMove 10 ⟨1, 2⟩, MacroEvent.keyboard 12 "a" true]))
          else none) "m.json"
      = Except.ok (save_to_file_records
          [MacroEvent.mouseMove 10 ⟨1, 2⟩, MacroEvent.keyboard 12 "a" true])
    ∧ (save_to_file_records
        [MacroEvent.mouseMove 10 ⟨1, 2⟩, MacroEvent.keyboard 12 "a" true]).map
          event_from_dict
      = [MacroEvent.mouseMove 10 ⟨1, 2⟩, MacroEvent.keyboard 12 "a" true].map some := by
  have h := C2_round_trip [MacroEvent.mouseMove 10 ⟨1, 2⟩, MacroEvent.keyboard 12 "a" true]
    (by simp)
    (fun f => if f = "m.json" then
        some (FileContent.validJson (save_to_file_records
          [MacroEvent.mouseMove 10 ⟨1, 2⟩, MacroEvent.keyboard 12 "a" true]))
      else none)
    "m.json" (by simp)
  exact ⟨h.1, h.2.2.1⟩

/-- Pointwise reading of `save_records_map_time_diff`: the `time_diff` field
of the record at any index is the delta at that index. -/
theorem save_records_get_time_diff (events : List MacroEvent) (n : Nat)
    (hn : n < (save_to_file_records events).length)
    (hn2 : n < (time_diffs events).length) :
    ((save_to_file_records events).get ⟨n, hn⟩).time_diff
      = some ((time_diffs events).get ⟨n, hn2⟩) := by
  have h1 := congrArg (fun l => l[n]?) (save_records_map_time_diff events)
  simp only [List.getElem?_map] at h1
  rw [List.getElem?_eq_getElem hn, List.getElem?_eq_getElem hn2] at h1
  simp only [Option.map_some'] at h1
  simpa [List.get_eq_getElem] using h1

/-- C6: the records emitted by save are in input order; the first record's
`time_diff` is 0, and the record at index `i + 1` carries the timestamp of
event `i + 1` minus the timestamp of the immediately preceding original
event `i` (not a value derived from the preceding on-disk record). -/
theorem C6_time_diff_derivation (events : List MacroEvent) (hne : events ≠ []) :
    (∀ h0 : 0 < (save_to_file_records events).length,
      ((save_to_file_records events).get ⟨0, h0⟩).time_diff = some 0)
    ∧ ∀ i (hi : i + 1 < (save_to_file_records events).length)
        (hj : i + 1 < events.length) (hk : i < events.length),
        ((save_to_file_records events).get ⟨i + 1, hi⟩).time_diff
          = some ((events.get ⟨i + 1, hj⟩).timestamp
              - (events.get ⟨i, hk⟩).timestamp) := by
  cases events with
  | nil => exact absurd rfl hne
  | cons e0 rest =>
      constructor
      · intro h0
        rw [save_records_get_time_diff (e0 :: rest) 0 h0 (by simp [time_diffs])]
        simp [time_diffs]
      · intro i hi hj hk
        have hj2 : i + 1 < rest.length + 1 := by
          simpa using hj
        have hd2 : i + 1 < (time_diffs (e0 :: rest)).length := by
          simp only [time_diffs, List.length_cons, List.length_zipWith]
          omega
        rw [save_records_get_time_diff (e0 :: rest) (i + 1) hi hd2]
        simp only [time_diffs, List.get_eq_getElem, List.getElem_cons_succ,
          List.getElem_zipWith]

/-- C6 witness: the time-diff derivation theorem applied to a concrete
two-event recording with timestamps 10 and 12. -/
theorem C6_time_diff_witness :
    ((save_to_file_records
        [MacroEvent.mouseMove 10 ⟨1, 2⟩, MacroEvent.keyboard 12 "a" true]).get
        ⟨0, by decide⟩).time_diff = some 0
    ∧ ((save_to_file_records
        [MacroEvent.mouseMove 10 ⟨1, 2⟩, MacroEvent.keyboard 12 "a" true]).get
        ⟨1, by decide⟩).time_diff = some 2 := by
  have h := C6_time_diff_derivation
    [MacroEvent.mouseMove 10 ⟨1, 2⟩, MacroEvent.keyboard 12 "a" true] (by simp)
  refine ⟨h.1 (by decide), ?_⟩
  have h2 := h.2 0 (by decide) (by decide) (by decide)
  simpa [MacroEvent.timestamp, show (12 : ℚ) - 10 = 2 by norm_num] using h2

/-- Unfolding equation of `skip_flags` on a nonempty action list. -/
theorem skip_flags_cons (sf : ℚ) (draws : ℕ → ℚ) (a : String)
    (rest : List String) (sc di : Nat) :
    skip_flags sf draws (a :: rest) sc di
      = (move_skip_decision sf draws sc di a).1
          :: skip_flags sf draws rest (move_skip_decision sf draws sc di a).2.1
              (move_skip_decision sf draws sc di a).2.2 := rfl

/-- The skip decision when the speed gate, the counter test and the random
draw all pass: skip, increment the counter, consume the draw. -/
theorem move_skip_decision_skip (sf : ℚ) (draws : ℕ → ℚ) (sc di : Nat)
    (a : String) (hma : 1 < sf ∧ a = "move") (hsc : (sc : ℚ) < min 5 sf)
    (hdr : draws di < 1 - 1 / sf) :
    move_skip_decision sf draws sc di a = (true, sc + 1, di + 1) := by
  unfold move_skip_decision
  rw [if_pos hma, if_pos hsc, if_pos hdr]

/-- The skip decision when the counter test passes but the draw does not:
execute, reset the counter, consume the draw. -/
theorem move_skip_decision_reset_draw (sf : ℚ) (draws : ℕ → ℚ) (sc di : Nat)
    (a : String) (hma : 1 < sf ∧ a = "move") (hsc : (sc : ℚ) < min 5 sf)
    (hdr : ¬ draws di < 1 - 1 / sf) :
    move_skip_decision sf draws sc di a = (false, 0, di + 1) := by
  unfold move_skip_decision
  rw [if_pos hma, if_pos hsc, if_neg hdr]

/-- The skip decision when the counter test fails: execute, reset the
counter, no draw is consumed (Python short-circuits the conjunction). -/
theorem move_skip_decision_reset_nodraw (sf : ℚ) (draws : ℕ → ℚ) (sc di : Nat)
    (a : String) (hma : 1 < sf ∧ a = "move")
    (hsc : ¬ (sc : ℚ) < min 5 sf) :
    move_skip_decision sf draws sc di a = (false, 0, di) := by
  unfold move_skip_decision
  rw [if_pos hma, if_neg hsc]

/-- The skip decision outside the speed gate (slow replay or a record that is
not a move): execute, leaving the counter and the draw stream untouched. -/
theorem move_skip_decision_pass (sf : ℚ) (draws : ℕ → ℚ) (sc di : Nat)
    (a : String) (hma : ¬ (1 < sf ∧ a = "move")) :
    move_skip_decision sf draws sc di a = (false, sc, di) := by
  simp only [move_skip_decision, if_neg hma]

/-- At most the skip counter bounds the current run: threading the loop with
a current-run length at most the counter, a counter at most the ceiling of
`min 5 speed_factor`, and a best run at most that ceiling, the longest run of
consecutive skips stays at most the ceiling. A skip requires the counter to
be strictly below `min 5 speed_factor`, so the counter (and with it any run)
can never pass its ceiling. -/
theorem max_run_aux_skip_flags_le (sf : ℚ) (draws : ℕ → ℚ) :
    ∀ (actions : List String) (sc di cur best : Nat),
      cur ≤ sc → sc ≤ ⌈min 5 sf⌉₊ → best ≤ ⌈min 5 sf⌉₊ →
      max_run_aux (skip_flags sf draws actions sc di) cur best ≤ ⌈min 5 sf⌉₊ := by
  intro actions
  induction actions with
  | nil =>
      intro sc di cur best hcs hsb hbb
      exact max_le (hcs.trans hsb) hbb
  | cons a rest ih =>
      intro sc di cur best hcs hsb hbb
      by_cases hma : 1 < sf ∧ a = "move"
      · by_cases hsc : (sc : ℚ) < min 5 sf
        · by_cases hdr : draws di < 1 - 1 / sf
          · rw [skip_flags_cons, move_skip_decision_skip sf draws sc di a hma hsc hdr]
            exact ih (sc + 1) (di + 1) (cur + 1) best
              (Nat.succ_le_succ hcs) (Nat.succ_le_of_lt (Nat.lt_ceil.mpr hsc)) hbb
          · rw [skip_flags_cons, move_skip_decision_reset_draw sf draws sc di a hma hsc hdr]
            exact ih 0 (di + 1) 0 (max cur best)
              (le_refl 0) (Nat.zero_le _) (max_le (hcs.trans hsb) hbb)
        · rw [skip_flags_cons, move_skip_decision_reset_nodraw sf draws sc di a hma hsc]
          exact ih 0 di 0 (max cur best)
            (le_refl 0) (Nat.zero_le _) (max_le (hcs.trans hsb) hbb)
      · rw [skip_flags_cons, move_skip_decision_pass sf draws sc di a hma]
        exact ih sc di 0 (max cur best)
          (Nat.zero_le _) hsb (max_le (hcs.trans hsb) hbb)

/-- With the speed gate closed (`speed_factor <= 1`) no record is ever
skipped, whatever the counter, the draw position and the draws. -/
theorem skip_flags_all_false_of_le_one (sf : ℚ) (draws : ℕ → ℚ)
    (h : sf ≤ 1) :
    ∀ (actions : List String) (sc di : Nat),
      ∀ b ∈ skip_flags sf draws actions sc di, b = false := by
  intro actions
  induction actions with
  | nil =>
      intro sc di b hb
      simp [skip_flags] at hb
  | cons a rest ih =>
      intro sc di b hb
      have hma : ¬ (1 < sf ∧ a = "move") := fun hc => absurd hc.1 (not_lt.mpr h)
      rw [skip_flags_cons, move_skip_decision_pass sf draws sc di a hma] at hb
      rcases List.mem_cons.mp hb with h1 | h1
      · exact h1
      · exact ih sc di b h1

/-- C4 counterexample: the claim bounds every run of consecutively skipped
move records by `min(5, speed_factor)` for every speed factor above 1, but at
`speed_factor = 5/2` the counter test `skip_count < min(5, speed_factor)`
passes for counts 0, 1 and 2, so draws below `1 - 1/speed_factor` produce a
run of 3 consecutive skips, strictly exceeding `min(5, 5/2) = 5/2`. -/
theorem C4_skip_run_counterexample :
    min 5 ((5 : ℚ) / 2)
      < (max_run (skip_flags ((5 : ℚ) / 2) (fun _ => 0)
          ["move", "move", "move"] 0 0) : ℚ) := by
  have hflags : skip_flags ((5 : ℚ) / 2) (fun _ => 0) ["move", "move", "move"] 0 0
      = [true, true, true] := by
    rw [skip_flags_cons, move_skip_decision_skip _ _ _ _ _ ⟨by norm_num, rfl⟩
      (by norm_num) (by norm_num)]
    rw [skip_flags_cons, move_skip_decision_skip _ _ _ _ _ ⟨by norm_num, rfl⟩
      (by norm_num) (by norm_num)]
    rw [skip_flags_cons, move_skip_decision_skip _ _ _ _ _ ⟨by norm_num, rfl⟩
      (by norm_num) (by norm_num)]
    rfl
  rw [hflags]
  norm_num [max_run, max_run_aux]

/-- C4 amended: for every speed factor above 1 and every draw sequence, no
run of consecutively skipped move records exceeds the integer ceiling of
`min(5, speed_factor)` (the number of counter values strictly below the
bound); for speed factors of 5 or below that ceiling is the next integer at
or above the speed factor, and for integer speed factors it is
`min(5, speed_factor)` itself, as the claim states. For every speed factor
at or below 1, no record is ever skipped. -/
theorem C4_skip_run_bound (speed_factor : ℚ) (draws : ℕ → ℚ)
    (actions : List String) :
    (1 < speed_factor →
      max_run (skip_flags speed_factor draws actions 0 0)
        ≤ ⌈min 5 speed_factor⌉₊)
    ∧ (speed_factor ≤ 1 →
      ∀ b ∈ skip_flags speed_factor draws actions 0 0, b = false) := by
  constructor
  · intro _
    exact max_run_aux_skip_flags_le speed_factor draws actions 0 0 0 0
      (le_refl 0) (Nat.zero_le _) (Nat.zero_le _)
  · intro h1
    exact skip_flags_all_false_of_le_one speed_factor draws h1 actions 0 0

/-- C4 witness: the amended bound at speed factor 2 over three move records,
and the no-skip half at speed factor 1 over two move records. -/
theorem C4_skip_run_bound_witness :
    max_run (skip_flags 2 (fun _ => 0) ["move", "move", "move"] 0 0)
      ≤ ⌈min 5 (2 : ℚ)⌉₊
    ∧ ∀ b ∈ skip_flags (1 : ℚ) (fun _ => 0) ["move", "move"] 0 0, b = false :=
  ⟨(C4_skip_run_bound 2 (fun _ => 0) ["move", "move", "move"]).1 (by norm_num),
   (C4_skip_run_bound 1 (fun _ => 0) ["move", "move"]).2 (le_refl 1)⟩
